import Mathlib

/-!
Verification of the FireToDo server (src/server/server.js): a shallow
embedding of its data model, store helpers and HTTP mutation endpoints,
followed by theorems settling the specification claims.

Modelling conventions:
- A task object `{id, task, completed, createdAt}` becomes the structure
  `Todo`.  `id` is the number produced by `Date.now()` (an `Int`, since
  `parseInt` on a path segment may produce negatives); `createdAt` is the
  ISO timestamp string, represented by the instant it denotes in
  milliseconds (a `Nat`), since the code only ever compares such strings
  through `new Date(...)` subtraction.
- The persisted file `db.json` becomes `FileState`: `absent` models
  ENOENT, `corrupt` models a file whose contents `JSON.parse` rejects,
  `valid db` models a well-formed document.  `readData` catches ENOENT and
  writes the default document; every other error is rethrown, modelled by
  `Except JsErr`.
- `Array.prototype.sort` with the comparator
  `(a, b) => new Date(b.createdAt) - new Date(a.createdAt)` is, per the
  ECMAScript contract, a stable sort putting larger `createdAt` first; it
  is embedded as Mathlib insertion sort (stable) on the relation
  `b.createdAt ≤ a.createdAt`.
- Each Express handler becomes a function from its request data and the
  file state to an `HttpResult`: status code, response body, resulting
  file state, and the payload broadcast via `io.emit` (`none` when the
  handler returns without emitting).
- `Date.now()` and `new Date().toISOString()` are two reads of the wall
  clock made back to back in the POST handler; the model passes the single
  instant `now` for both.
-/

namespace FireToDo

/-- One to-do item, as stored in `db.json` and created by the POST handler. -/
structure Todo where
  id : Int
  task : String
  completed : Bool
  createdAt : Nat
  deriving Repr, DecidableEq

/-- The persisted document shape `{ todos: [...] }`. -/
structure DB where
  todos : List Todo
  deriving Repr, DecidableEq

/-- The state of the `db.json` file on disk. -/
inductive FileState where
  | absent
  | corrupt
  | valid (db : DB)
  deriving Repr, DecidableEq

/-- An error escaping a handler: the storage error rethrown by `readData`
when the file exists but `JSON.parse` fails on it. -/
inductive JsErr where
  | storageError
  deriving Repr, DecidableEq

/-- `writeData(data)`: `fs.writeFileSync(DB_PATH, JSON.stringify(data, null, 2))`
overwrites the file with the serialized document. -/
def writeData (data : DB) (_fs : FileState) : FileState :=
  .valid data

/-- `readData()`: reads and parses the file; on ENOENT writes and returns
the default `{ todos: [] }`; any other error (the parse error on a corrupt
file) is rethrown. -/
def readData : FileState → Except JsErr (DB × FileState)
  | .absent => .ok (⟨[]⟩, writeData ⟨[]⟩ .absent)
  | .corrupt => .error .storageError
  | .valid db => .ok (db, .valid db)

/-- The comparator `(a, b) => new Date(b.createdAt) - new Date(a.createdAt)`:
`a` is placed no later than `b` exactly when `b.createdAt ≤ a.createdAt`. -/
def newerEq (a b : Todo) : Prop :=
  b.createdAt ≤ a.createdAt

instance : DecidableRel newerEq := fun a b =>
  inferInstanceAs (Decidable (b.createdAt ≤ a.createdAt))

instance : IsTotal Todo newerEq :=
  ⟨fun a b => Nat.le_total b.createdAt a.createdAt⟩

instance : IsTrans Todo newerEq :=
  ⟨fun _ _ _ h1 h2 => Nat.le_trans h2 h1⟩

/-- `data.todos.sort((a, b) => new Date(b.createdAt) - new Date(a.createdAt))`:
a stable sort placing the most recently created task first. -/
def sortTodos (l : List Todo) : List Todo :=
  List.insertionSort newerEq l

/-- `getSortedTodos()`: reads the data and returns the todos sorted by
`createdAt` descending (the file is not rewritten). -/
def getSortedTodos (fs : FileState) : Except JsErr (List Todo × FileState) :=
  match readData fs with
  | .error e => .error e
  | .ok (data, fs1) => .ok (sortTodos data.todos, fs1)

/-- Magnitude part of JavaScript `parseInt(s)` with no radix argument,
after whitespace and sign stripping: a `0x`/`0X` prefix selects base 16,
otherwise base 10; the longest prefix of digits of that base is converted,
and an empty digit prefix gives NaN (`none`). -/
def parseIntMag (cs : List Char) : Option Nat :=
  match cs with
  | '0' :: 'x' :: rest => parseRadix 16 rest
  | '0' :: 'X' :: rest => parseRadix 16 rest
  | _ => parseRadix 10 cs
where
  digitVal (radix : Nat) (c : Char) : Option Nat :=
    if '0' ≤ c ∧ c ≤ '9' ∧ c.toNat - '0'.toNat < radix then
      some (c.toNat - '0'.toNat)
    else if radix = 16 ∧ 'a' ≤ c ∧ c ≤ 'f' then
      some (c.toNat - 'a'.toNat + 10)
    else if radix = 16 ∧ 'A' ≤ c ∧ c ≤ 'F' then
      some (c.toNat - 'A'.toNat + 10)
    else
      none
  parseRadix (radix : Nat) (cs : List Char) : Option Nat :=
    let ds := cs.takeWhile (fun c => (digitVal radix c).isSome)
    if ds.isEmpty then
      none
    else
      some (ds.foldl (fun acc c => acc * radix + ((digitVal radix c).getD 0)) 0)

/-- JavaScript `parseInt(s)` with no radix argument: strips leading
whitespace, consumes an optional sign, and converts the longest digit
prefix; yields NaN (`none`) when no digits follow. -/
def parseIntJS (s : String) : Option Int :=
  let cs := s.data.dropWhile Char.isWhitespace
  match cs with
  | '-' :: rest => (parseIntMag rest).map (fun n => -(n : Int))
  | '+' :: rest => (parseIntMag rest).map (fun n => (n : Int))
  | _ => (parseIntMag cs).map (fun n => (n : Int))

/-- Strict equality `todo.id === todoId` between a stored numeric id and
the `parseInt` result: `NaN === x` is always false. -/
def jsEqId (i : Int) : Option Int → Bool
  | none => false
  | some n => i == n

instance {ε α : Type} [DecidableEq ε] [DecidableEq α] : DecidableEq (Except ε α) := fun a b =>
  match a, b with
  | .ok x, .ok y => if h : x = y then .isTrue (by rw [h]) else .isFalse (by simpa using h)
  | .error x, .error y => if h : x = y then .isTrue (by rw [h]) else .isFalse (by simpa using h)
  | .ok _, .error _ => .isFalse (by simp)
  | .error _, .ok _ => .isFalse (by simp)

/-- Outcome of one Express handler invocation: HTTP status, response body,
file state afterwards, and the `todos_updated` payload emitted to all
sockets (`none` when the handler does not emit). -/
structure HttpResult (α : Type) where
  status : Nat
  body : α
  file : FileState
  broadcast : Option (List Todo)
  deriving Repr, DecidableEq

/-- The PUT request body `req.body`, restricted to the task fields the
spread `{ ...todo, ...req.body }` can merge; `none` means the key is
absent from the payload. -/
structure UpdateBody where
  id : Option Int := none
  task : Option String := none
  completed : Option Bool := none
  createdAt : Option Nat := none
  deriving Repr, DecidableEq

/-- The spread merge `{ ...todo, ...req.body }`: each field present in the
payload overrides the stored value, absent fields keep it. -/
def mergeSpread (t : Todo) (b : UpdateBody) : Todo :=
  { id := b.id.getD t.id
    task := b.task.getD t.task
    completed := b.completed.getD t.completed
    createdAt := b.createdAt.getD t.createdAt }

/-- `data.todos.findIndex((todo) => todo.id === todoId)` followed by
`data.todos[todoIndex] = { ...data.todos[todoIndex], ...req.body }`:
replaces the first task matching `todoId` by the merged task, returning
the new list and the merged task, or `none` when `findIndex` gives `-1`. -/
def updateAt (body : UpdateBody) (todoId : Option Int) : List Todo → Option (List Todo × Todo)
  | [] => none
  | t :: ts =>
    if jsEqId t.id todoId then
      some (mergeSpread t body :: ts, mergeSpread t body)
    else
      (updateAt body todoId ts).map (fun p => (t :: p.1, p.2))

/-- `app.post('/api/todos')`: reads the data, appends a fresh task with
`id = Date.now()`, `completed = false`, `createdAt` the current instant,
writes, emits the re-read sorted list, and responds 201 with the task. -/
def postTodos (task : String) (now : Nat) (fs : FileState) : Except JsErr (HttpResult Todo) :=
  match readData fs with
  | .error e => .error e
  | .ok (data, fs1) =>
    let newTodo : Todo := ⟨(now : Int), task, false, now⟩
    let data2 : DB := ⟨data.todos ++ [newTodo]⟩
    let fs2 := writeData data2 fs1
    match getSortedTodos fs2 with
    | .error e => .error e
    | .ok (sorted, fs3) => .ok ⟨201, newTodo, fs3, some sorted⟩

/-- `app.put('/api/todos/:id')`: reads the data, parses the path id,
404s when no task matches, otherwise merges the payload into the matched
task, writes, emits the re-read sorted list, and responds 200 with the
merged task. -/
def putTodos (idParam : String) (body : UpdateBody) (fs : FileState) :
    Except JsErr (HttpResult (Option Todo)) :=
  match readData fs with
  | .error e => .error e
  | .ok (data, fs1) =>
    let todoId := parseIntJS idParam
    match updateAt body todoId data.todos with
    | none => .ok ⟨404, none, fs1, none⟩
    | some (todos2, merged) =>
      let fs2 := writeData ⟨todos2⟩ fs1
      match getSortedTodos fs2 with
      | .error e => .error e
      | .ok (sorted, fs3) => .ok ⟨200, some merged, fs3, some sorted⟩

/-- `app.delete('/api/todos/:id')`: reads the data, parses the path id,
filters out every task whose id strictly equals it, 404s when the filter
removed nothing, otherwise writes the filtered list, emits the re-read
sorted list, and responds 204. -/
def deleteTodos (idParam : String) (fs : FileState) : Except JsErr (HttpResult Unit) :=
  match readData fs with
  | .error e => .error e
  | .ok (data, fs1) =>
    let todoId := parseIntJS idParam
    let filteredTodos := data.todos.filter (fun t => !(jsEqId t.id todoId))
    if data.todos.length == filteredTodos.length then
      .ok ⟨404, (), fs1, none⟩
    else
      let fs2 := writeData ⟨filteredTodos⟩ fs1
      match getSortedTodos fs2 with
      | .error e => .error e
      | .ok (sorted, fs3) => .ok ⟨204, (), fs3, some sorted⟩

/-- `app.get('/api/todos')`: responds 200 with the sorted list; no emit. -/
def getTodos (fs : FileState) : Except JsErr (HttpResult (List Todo)) :=
  match getSortedTodos fs with
  | .error e => .error e
  | .ok (sorted, fs1) => .ok ⟨200, sorted, fs1, none⟩

/-! ### Helper lemmas -/

theorem sortTodos_perm (l : List Todo) : List.Perm (sortTodos l) l :=
  List.perm_insertionSort newerEq l

theorem sortTodos_sorted (l : List Todo) : List.Sorted newerEq (sortTodos l) :=
  List.sorted_insertionSort newerEq l

theorem readData_ok {fs : FileState} {data : DB} {fs1 : FileState}
    (h : readData fs = .ok (data, fs1)) : fs1 = .valid data := by
  cases fs <;> simp [readData, writeData] at h
  · rw [← h.1, ← h.2]
  · rw [← h.1, ← h.2]

theorem updateAt_eq_none {body : UpdateBody} {tid : Option Int} :
    ∀ {l : List Todo}, updateAt body tid l = none ↔ ∀ t ∈ l, jsEqId t.id tid = false := by
  intro l
  induction l with
  | nil => simp [updateAt]
  | cons t ts ih =>
    cases h : jsEqId t.id tid with
    | true => simp [updateAt, h]
    | false => simp [updateAt, h, Option.map_eq_none, ih]

theorem updateAt_append {body : UpdateBody} {tid : Option Int}
    (pre : List Todo) (old : Todo) (post : List Todo)
    (hpre : ∀ t ∈ pre, jsEqId t.id tid = false) (hold : jsEqId old.id tid = true) :
    updateAt body tid (pre ++ old :: post) =
      some (pre ++ mergeSpread old body :: post, mergeSpread old body) := by
  induction pre with
  | nil => simp [updateAt, hold]
  | cons t ts ih =>
    have ht : jsEqId t.id tid = false := hpre t (by simp)
    have ihx := ih (fun u hu => hpre u (by simp [hu]))
    simp [updateAt, ht, ihx]

theorem updateAt_mem {body : UpdateBody} {tid : Option Int} :
    ∀ {l l2 : List Todo} {m : Todo}, updateAt body tid l = some (l2, m) → m ∈ l2 := by
  intro l
  induction l with
  | nil => intro l2 m h; simp [updateAt] at h
  | cons t ts ih =>
    intro l2 m h
    cases hm : jsEqId t.id tid with
    | true =>
      simp [updateAt, hm] at h
      rw [← h.1, ← h.2]
      exact List.mem_cons_self _ _
    | false =>
      cases hu : updateAt body tid ts with
      | none => simp [updateAt, hm, hu] at h
      | some p =>
        obtain ⟨l3, m3⟩ := p
        simp [updateAt, hm, hu] at h
        rw [← h.1, ← h.2]
        exact List.mem_cons_of_mem t (ih hu)

theorem postTodos_valid (task : String) (now : Nat) (db : DB) :
    postTodos task now (.valid db) =
      .ok ⟨201, ⟨(now : Int), task, false, now⟩,
           .valid ⟨db.todos ++ [⟨(now : Int), task, false, now⟩]⟩,
           some (sortTodos (db.todos ++ [⟨(now : Int), task, false, now⟩]))⟩ :=
  rfl

theorem postTodos_absent (task : String) (now : Nat) :
    postTodos task now .absent = postTodos task now (.valid ⟨[]⟩) :=
  rfl

theorem putTodos_absent (idParam : String) (body : UpdateBody) :
    putTodos idParam body .absent = putTodos idParam body (.valid ⟨[]⟩) :=
  rfl

theorem deleteTodos_absent (idParam : String) :
    deleteTodos idParam .absent = deleteTodos idParam (.valid ⟨[]⟩) :=
  rfl

theorem putTodos_found {idParam : String} {body : UpdateBody} {db : DB}
    {l2 : List Todo} {m : Todo}
    (h : updateAt body (parseIntJS idParam) db.todos = some (l2, m)) :
    putTodos idParam body (.valid db) = .ok ⟨200, some m, .valid ⟨l2⟩, some (sortTodos l2)⟩ := by
  simp [putTodos, readData, h, getSortedTodos, writeData]

theorem putTodos_notfound {idParam : String} {body : UpdateBody} {db : DB}
    (h : updateAt body (parseIntJS idParam) db.todos = none) :
    putTodos idParam body (.valid db) = .ok ⟨404, none, .valid db, none⟩ := by
  simp [putTodos, readData, h]

theorem deleteTodos_notfound {idParam : String} {db : DB}
    (h : ∀ t ∈ db.todos, jsEqId t.id (parseIntJS idParam) = false) :
    deleteTodos idParam (.valid db) = .ok ⟨404, (), .valid db, none⟩ := by
  have hf : db.todos.filter (fun t => !(jsEqId t.id (parseIntJS idParam))) = db.todos :=
    List.filter_eq_self.mpr (by intro a ha; simp [h a ha])
  simp [deleteTodos, readData, hf]

theorem deleteTodos_found {idParam : String} {db : DB}
    (h : ∃ t ∈ db.todos, jsEqId t.id (parseIntJS idParam) = true) :
    deleteTodos idParam (.valid db) =
      .ok ⟨204, (),
           .valid ⟨db.todos.filter (fun t => !(jsEqId t.id (parseIntJS idParam)))⟩,
           some (sortTodos (db.todos.filter (fun t => !(jsEqId t.id (parseIntJS idParam)))))⟩ := by
  obtain ⟨t, ht, htid⟩ := h
  have hne : (db.todos.length ==
      (db.todos.filter (fun t => !(jsEqId t.id (parseIntJS idParam)))).length) = false := by
    rw [beq_eq_false_iff_ne]
    intro heq
    have hsub := List.filter_sublist
      (l := db.todos) (p := fun t => !(jsEqId t.id (parseIntJS idParam)))
    have heq2 := hsub.eq_of_length heq.symm
    have htf : t ∈ db.todos.filter (fun t => !(jsEqId t.id (parseIntJS idParam))) := by
      rw [heq2]; exact ht
    have := (List.mem_filter.mp htf).2
    simp [htid] at this
  simp [deleteTodos, readData, hne, writeData, getSortedTodos]

theorem updateAt_map_pairs {body : UpdateBody} {tid : Option Int}
    (hid : body.id = none) (hcr : body.createdAt = none) :
    ∀ {l l2 : List Todo} {m : Todo}, updateAt body tid l = some (l2, m) →
      l2.map (fun t => (t.id, t.createdAt)) = l.map (fun t => (t.id, t.createdAt)) := by
  intro l
  induction l with
  | nil => intro l2 m h; simp [updateAt] at h
  | cons t ts ih =>
    intro l2 m h
    cases hm : jsEqId t.id tid with
    | true =>
      simp [updateAt, hm] at h
      rw [← h.1]
      simp [mergeSpread, hid, hcr]
    | false =>
      cases hu : updateAt body tid ts with
      | none => simp [updateAt, hm, hu] at h
      | some p =>
        obtain ⟨l3, m3⟩ := p
        simp [updateAt, hm, hu] at h
        rw [← h.1]
        simp [ih hu]

/-! ### Claim theorems -/

/-- Claim C7: when no persisted document exists (ENOENT), `readData` writes
the default `{ todos: [] }` document and returns it; when the document
exists but cannot be parsed, `readData` propagates the storage error
instead of recovering. -/
theorem readData_default_and_propagate :
    readData .absent = .ok (⟨[]⟩, writeData ⟨[]⟩ .absent) ∧
    writeData ⟨[]⟩ .absent = .valid ⟨[]⟩ ∧
    readData .corrupt = .error .storageError :=
  ⟨rfl, rfl, rfl⟩

/-- Claim C8: saving any collection and then loading yields exactly the
saved collection (save followed by load is the identity, field for field),
for every prior file state. -/
theorem save_then_load_roundtrip :
    ∀ (data : DB) (fs : FileState),
      readData (writeData data fs) = .ok (data, writeData data fs) :=
  fun _ _ => rfl

/-- Claim C2: `getSortedTodos` (the GET response body and every broadcast
payload) returns a permutation of the stored tasks ordered by `createdAt`
descending, and a task strictly newer than all others is first. -/
theorem getSortedTodos_sorted_desc (db : DB) (out : List Todo) (fs2 : FileState)
    (h : getSortedTodos (.valid db) = .ok (out, fs2)) :
    out.Pairwise newerEq ∧ List.Perm out db.todos ∧
      ∀ t ∈ db.todos, (∀ u ∈ db.todos, u ≠ t → u.createdAt < t.createdAt) →
        out.head? = some t := by
  have hout : sortTodos db.todos = out := by
    simp [getSortedTodos, readData] at h
    exact h.1
  subst hout
  refine ⟨sortTodos_sorted db.todos, sortTodos_perm db.todos, ?_⟩
  intro t ht hmax
  have htout : t ∈ sortTodos db.todos := ((sortTodos_perm db.todos).mem_iff).mpr ht
  cases hcons : sortTodos db.todos with
  | nil => rw [hcons] at htout; simp at htout
  | cons a rest =>
    have ha : a ∈ db.todos :=
      (sortTodos_perm db.todos).subset (by rw [hcons]; exact List.mem_cons_self a rest)
    by_cases hat : a = t
    · simp [hat]
    · rw [hcons] at htout
      have htrest : t ∈ rest :=
        (List.mem_cons.mp htout).resolve_left (fun he => hat he.symm)
      have hsorted := sortTodos_sorted db.todos
      rw [hcons] at hsorted
      have hle : newerEq a t := (List.pairwise_cons.mp hsorted).1 t htrest
      have hlt : a.createdAt < t.createdAt := hmax a ha hat
      exact absurd hlt (Nat.not_lt.mpr hle)

/-- Witness for C2 on a concrete two-task store. -/
theorem getSortedTodos_sorted_desc_witness :
    ([⟨2, "b", false, 9⟩, ⟨1, "a", false, 5⟩] : List Todo).Pairwise newerEq ∧
    List.Perm ([⟨2, "b", false, 9⟩, ⟨1, "a", false, 5⟩] : List Todo)
      [⟨1, "a", false, 5⟩, ⟨2, "b", false, 9⟩] ∧
    ∀ t ∈ ([⟨1, "a", false, 5⟩, ⟨2, "b", false, 9⟩] : List Todo),
      (∀ u ∈ ([⟨1, "a", false, 5⟩, ⟨2, "b", false, 9⟩] : List Todo),
        u ≠ t → u.createdAt < t.createdAt) →
      ([⟨2, "b", false, 9⟩, ⟨1, "a", false, 5⟩] : List Todo).head? = some t :=
  getSortedTodos_sorted_desc ⟨[⟨1, "a", false, 5⟩, ⟨2, "b", false, 9⟩]⟩
    [⟨2, "b", false, 9⟩, ⟨1, "a", false, 5⟩]
    (.valid ⟨[⟨1, "a", false, 5⟩, ⟨2, "b", false, 9⟩]⟩) (by decide)

/-- Claim C3: when the target id matches no stored task, PUT and DELETE
both answer 404, leave the persisted collection exactly as it was, and
emit no broadcast. -/
theorem notFound_preserves_state_no_broadcast (db : DB) (idParam : String) (body : UpdateBody)
    (habs : ∀ t ∈ db.todos, jsEqId t.id (parseIntJS idParam) = false) :
    putTodos idParam body (.valid db) = .ok ⟨404, none, .valid db, none⟩ ∧
    deleteTodos idParam (.valid db) = .ok ⟨404, (), .valid db, none⟩ :=
  ⟨putTodos_notfound (updateAt_eq_none.mpr habs), deleteTodos_notfound habs⟩

/-- Witness for C3: deleting or updating id 7 in a store holding only id 1. -/
theorem notFound_preserves_state_no_broadcast_witness :
    putTodos "7" ⟨none, none, some true, none⟩ (.valid ⟨[⟨1, "a", false, 5⟩]⟩) =
      .ok ⟨404, none, .valid ⟨[⟨1, "a", false, 5⟩]⟩, none⟩ ∧
    deleteTodos "7" (.valid ⟨[⟨1, "a", false, 5⟩]⟩) =
      .ok ⟨404, (), .valid ⟨[⟨1, "a", false, 5⟩]⟩, none⟩ :=
  notFound_preserves_state_no_broadcast ⟨[⟨1, "a", false, 5⟩]⟩ "7"
    ⟨none, none, some true, none⟩ (by decide)

/-- Claim C1: every successful mutation (POST, PUT, DELETE) leaves some
collection persisted, broadcasts exactly that collection re-read and
sorted, and the direct HTTP response (201 created task, 200 merged task)
is drawn from that same post-mutation collection. -/
theorem mutation_broadcasts_post_state :
    (∀ (task : String) (now : Nat) (fs : FileState) (r : HttpResult Todo),
        postTodos task now fs = .ok r →
        ∃ db, r.file = .valid db ∧ r.broadcast = some (sortTodos db.todos) ∧
          r.status = 201 ∧ r.body ∈ db.todos) ∧
    (∀ (idParam : String) (body : UpdateBody) (fs : FileState)
        (r : HttpResult (Option Todo)) (t : Todo),
        putTodos idParam body fs = .ok r → r.body = some t →
        ∃ db, r.file = .valid db ∧ r.broadcast = some (sortTodos db.todos) ∧
          r.status = 200 ∧ t ∈ db.todos) ∧
    (∀ (idParam : String) (fs : FileState) (r : HttpResult Unit),
        deleteTodos idParam fs = .ok r → r.status = 204 →
        ∃ db, r.file = .valid db ∧ r.broadcast = some (sortTodos db.todos)) := by
  have hpost : ∀ (task : String) (now : Nat) (db : DB) (r : HttpResult Todo),
      postTodos task now (.valid db) = .ok r →
      ∃ db2, r.file = .valid db2 ∧ r.broadcast = some (sortTodos db2.todos) ∧
        r.status = 201 ∧ r.body ∈ db2.todos := by
    intro task now db r h
    rw [postTodos_valid] at h
    injection h with h2
    refine ⟨⟨db.todos ++ [⟨(now : Int), task, false, now⟩]⟩, ?_, ?_, ?_, ?_⟩ <;>
      simp [← h2]
  have hput : ∀ (idParam : String) (body : UpdateBody) (db : DB)
      (r : HttpResult (Option Todo)) (t : Todo),
      putTodos idParam body (.valid db) = .ok r → r.body = some t →
      ∃ db2, r.file = .valid db2 ∧ r.broadcast = some (sortTodos db2.todos) ∧
        r.status = 200 ∧ t ∈ db2.todos := by
    intro idParam body db r t h hb
    cases hu : updateAt body (parseIntJS idParam) db.todos with
    | none =>
      rw [putTodos_notfound hu] at h
      injection h with h2
      rw [← h2] at hb
      exact absurd hb (by simp)
    | some p =>
      obtain ⟨l2, m⟩ := p
      rw [putTodos_found hu] at h
      injection h with h2
      rw [← h2] at hb
      have hmt : m = t := by simpa using hb
      subst hmt
      refine ⟨⟨l2⟩, ?_, ?_, ?_, updateAt_mem hu⟩ <;> rw [← h2]
  have hdel : ∀ (idParam : String) (db : DB) (r : HttpResult Unit),
      deleteTodos idParam (.valid db) = .ok r → r.status = 204 →
      ∃ db2, r.file = .valid db2 ∧ r.broadcast = some (sortTodos db2.todos) := by
    intro idParam db r h hs
    by_cases hex : ∀ t ∈ db.todos, jsEqId t.id (parseIntJS idParam) = false
    · rw [deleteTodos_notfound hex] at h
      injection h with h2
      rw [← h2] at hs
      exact absurd hs (by simp)
    · push_neg at hex
      obtain ⟨t, ht, htid⟩ := hex
      simp only [Bool.not_eq_false] at htid
      rw [deleteTodos_found ⟨t, ht, htid⟩] at h
      injection h with h2
      exact ⟨⟨_⟩, by rw [← h2], by rw [← h2]⟩
  refine ⟨?_, ?_, ?_⟩
  · intro task now fs r h
    cases fs with
    | corrupt => exact Except.noConfusion h
    | absent => rw [postTodos_absent] at h; exact hpost _ _ _ _ h
    | valid db => exact hpost _ _ _ _ h
  · intro idParam body fs r t h hb
    cases fs with
    | corrupt => exact Except.noConfusion h
    | absent => rw [putTodos_absent] at h; exact hput _ _ _ _ _ h hb
    | valid db => exact hput _ _ _ _ _ h hb
  · intro idParam fs r h hs
    cases fs with
    | corrupt => exact Except.noConfusion h
    | absent => rw [deleteTodos_absent] at h; exact hdel _ _ _ h hs
    | valid db => exact hdel _ _ _ h hs

/-- Witness for C1: one concrete run of each mutation. -/
theorem mutation_broadcasts_post_state_witness :
    (∃ db, (⟨201, ⟨7, "x", false, 7⟩, .valid ⟨[⟨7, "x", false, 7⟩]⟩,
        some [⟨7, "x", false, 7⟩]⟩ : HttpResult Todo).file = .valid db ∧
      (⟨201, ⟨7, "x", false, 7⟩, .valid ⟨[⟨7, "x", false, 7⟩]⟩,
        some [⟨7, "x", false, 7⟩]⟩ : HttpResult Todo).broadcast = some (sortTodos db.todos) ∧
      (⟨201, ⟨7, "x", false, 7⟩, .valid ⟨[⟨7, "x", false, 7⟩]⟩,
        some [⟨7, "x", false, 7⟩]⟩ : HttpResult Todo).status = 201 ∧
      (⟨201, ⟨7, "x", false, 7⟩, .valid ⟨[⟨7, "x", false, 7⟩]⟩,
        some [⟨7, "x", false, 7⟩]⟩ : HttpResult Todo).body ∈ db.todos) ∧
    (∃ db, (⟨200, some ⟨1, "a", true, 5⟩, .valid ⟨[⟨1, "a", true, 5⟩]⟩,
        some [⟨1, "a", true, 5⟩]⟩ : HttpResult (Option Todo)).file = .valid db ∧
      (⟨200, some ⟨1, "a", true, 5⟩, .valid ⟨[⟨1, "a", true, 5⟩]⟩,
        some [⟨1, "a", true, 5⟩]⟩ : HttpResult (Option Todo)).broadcast =
          some (sortTodos db.todos) ∧
      (⟨200, some ⟨1, "a", true, 5⟩, .valid ⟨[⟨1, "a", true, 5⟩]⟩,
        some [⟨1, "a", true, 5⟩]⟩ : HttpResult (Option Todo)).status = 200 ∧
      (⟨1, "a", true, 5⟩ : Todo) ∈ db.todos) ∧
    (∃ db, (⟨204, (), .valid ⟨[]⟩, some []⟩ : HttpResult Unit).file = .valid db ∧
      (⟨204, (), .valid ⟨[]⟩, some []⟩ : HttpResult Unit).broadcast =
        some (sortTodos db.todos)) :=
  ⟨mutation_broadcasts_post_state.1 "x" 7 (.valid ⟨[]⟩) _ (by decide),
   mutation_broadcasts_post_state.2.1 "1" ⟨none, none, some true, none⟩
     (.valid ⟨[⟨1, "a", false, 5⟩]⟩) _ ⟨1, "a", true, 5⟩ (by decide) (by decide),
   mutation_broadcasts_post_state.2.2 "3" (.valid ⟨[⟨3, "a", false, 1⟩]⟩) _
     (by decide) (by decide)⟩

/-- Claim C4 counterexample: creating a task at an instant whose
`Date.now()` value equals the id of an already stored task yields a
collection carrying that id twice, so the returned id is not unique
across the resulting collection. -/
theorem post_id_collision_cex :
    postTodos "b" 1000 (.valid ⟨[⟨1000, "a", false, 500⟩]⟩) =
      .ok ⟨201, ⟨1000, "b", false, 1000⟩,
           .valid ⟨[⟨1000, "a", false, 500⟩, ⟨1000, "b", false, 1000⟩]⟩,
           some [⟨1000, "b", false, 1000⟩, ⟨1000, "a", false, 500⟩]⟩ ∧
    ¬ (([⟨1000, "a", false, 500⟩, ⟨1000, "b", false, 1000⟩] : List Todo).map Todo.id).Nodup :=
  ⟨by decide, by decide⟩

/-- Claim C4 (amended): every create returns a 201 task with
`completed = false`, `createdAt` the creation instant and
`id = Date.now()`, appended to the collection; that id occurs exactly once
in the resulting collection provided no stored task already carries the
creation timestamp as its id (near-simultaneous creates can collide). -/
theorem post_creates_fresh_task (task : String) (now : Nat) (db : DB)
    (hfresh : ∀ t ∈ db.todos, t.id ≠ (now : Int)) :
    ∃ r : HttpResult Todo,
      postTodos task now (.valid db) = .ok r ∧
      r.status = 201 ∧
      r.body = ⟨(now : Int), task, false, now⟩ ∧
      r.body.completed = false ∧
      r.body.createdAt = now ∧
      r.file = .valid ⟨db.todos ++ [r.body]⟩ ∧
      ((db.todos ++ [r.body]).map Todo.id).count r.body.id = 1 := by
  refine ⟨_, postTodos_valid task now db, rfl, rfl, rfl, rfl, rfl, ?_⟩
  have hzero : (db.todos.map Todo.id).count ((now : Int)) = 0 := by
    rw [List.count_eq_zero]
    simp only [List.mem_map, not_exists]
    intro t
    intro hand
    exact hfresh t hand.1 hand.2
  simp [List.count_append, hzero]

/-- Witness for C4 (amended) at a concrete fresh timestamp. -/
theorem post_creates_fresh_task_witness :
    ∃ r : HttpResult Todo,
      postTodos "x" 7 (.valid ⟨[⟨1, "a", false, 5⟩]⟩) = .ok r ∧
      r.status = 201 ∧
      r.body = ⟨7, "x", false, 7⟩ ∧
      r.body.completed = false ∧
      r.body.createdAt = 7 ∧
      r.file = .valid ⟨[⟨1, "a", false, 5⟩] ++ [r.body]⟩ ∧
      ((([⟨1, "a", false, 5⟩] : List Todo) ++ [r.body]).map Todo.id).count r.body.id = 1 :=
  post_creates_fresh_task "x" 7 ⟨[⟨1, "a", false, 5⟩]⟩ (by decide)

/-- Claim C5: updating an existing id with a partial payload merges the
supplied fields into the first matching task, keeps every field absent
from the payload at its previous value, leaves every other task (before
and after the match) untouched, persists the merged task and returns it. -/
theorem put_merges_and_preserves_frame (db : DB) (idParam : String) (body : UpdateBody)
    (pre post : List Todo) (old : Todo)
    (hdb : db.todos = pre ++ old :: post)
    (hpre : ∀ t ∈ pre, jsEqId t.id (parseIntJS idParam) = false)
    (hold : jsEqId old.id (parseIntJS idParam) = true) :
    putTodos idParam body (.valid db) =
      .ok ⟨200, some (mergeSpread old body),
           .valid ⟨pre ++ mergeSpread old body :: post⟩,
           some (sortTodos (pre ++ mergeSpread old body :: post))⟩ ∧
    (body.id = none → (mergeSpread old body).id = old.id) ∧
    (body.task = none → (mergeSpread old body).task = old.task) ∧
    (body.completed = none → (mergeSpread old body).completed = old.completed) ∧
    (body.createdAt = none → (mergeSpread old body).createdAt = old.createdAt) := by
  have hu : updateAt body (parseIntJS idParam) db.todos =
      some (pre ++ mergeSpread old body :: post, mergeSpread old body) := by
    rw [hdb]
    exact updateAt_append pre old post hpre hold
  refine ⟨putTodos_found hu, ?_, ?_, ?_, ?_⟩ <;> intro hN <;> simp [mergeSpread, hN]

/-- Witness for C5: completing task 2 in a two-task store. -/
theorem put_merges_and_preserves_frame_witness :
    putTodos "2" ⟨none, none, some true, none⟩
        (.valid ⟨[⟨1, "a", false, 5⟩, ⟨2, "b", false, 9⟩]⟩) =
      .ok ⟨200, some (mergeSpread ⟨2, "b", false, 9⟩ ⟨none, none, some true, none⟩),
           .valid ⟨[⟨1, "a", false, 5⟩] ++
             mergeSpread ⟨2, "b", false, 9⟩ ⟨none, none, some true, none⟩ :: []⟩,
           some (sortTodos ([⟨1, "a", false, 5⟩] ++
             mergeSpread ⟨2, "b", false, 9⟩ ⟨none, none, some true, none⟩ :: []))⟩ ∧
    ((⟨none, none, some true, none⟩ : UpdateBody).id = none →
      (mergeSpread ⟨2, "b", false, 9⟩ ⟨none, none, some true, none⟩).id =
        (⟨2, "b", false, 9⟩ : Todo).id) ∧
    ((⟨none, none, some true, none⟩ : UpdateBody).task = none →
      (mergeSpread ⟨2, "b", false, 9⟩ ⟨none, none, some true, none⟩).task =
        (⟨2, "b", false, 9⟩ : Todo).task) ∧
    ((⟨none, none, some true, none⟩ : UpdateBody).completed = none →
      (mergeSpread ⟨2, "b", false, 9⟩ ⟨none, none, some true, none⟩).completed =
        (⟨2, "b", false, 9⟩ : Todo).completed) ∧
    ((⟨none, none, some true, none⟩ : UpdateBody).createdAt = none →
      (mergeSpread ⟨2, "b", false, 9⟩ ⟨none, none, some true, none⟩).createdAt =
        (⟨2, "b", false, 9⟩ : Todo).createdAt) :=
  put_merges_and_preserves_frame ⟨[⟨1, "a", false, 5⟩, ⟨2, "b", false, 9⟩]⟩ "2"
    ⟨none, none, some true, none⟩ [⟨1, "a", false, 5⟩] [] ⟨2, "b", false, 9⟩
    (by decide) (by decide) (by decide)

/-- Claim C6 counterexample: a PUT payload that supplies `id` and
`createdAt` overwrites both on the stored task — the spread merge gives
them no protection — so they are not immutable under every payload. -/
theorem put_mutates_id_createdAt_cex :
    putTodos "1" ⟨some 999, none, none, some 7777⟩ (.valid ⟨[⟨1, "a", false, 5⟩]⟩) =
      .ok ⟨200, some ⟨999, "a", false, 7777⟩, .valid ⟨[⟨999, "a", false, 7777⟩]⟩,
           some [⟨999, "a", false, 7777⟩]⟩ ∧
    ([⟨999, "a", false, 7777⟩] : List Todo).map (fun t => (t.id, t.createdAt)) ≠
      ([⟨1, "a", false, 5⟩] : List Todo).map (fun t => (t.id, t.createdAt)) :=
  ⟨by decide, by decide⟩

/-- Claim C6 (amended): the id and createdAt of existing tasks never
change under create (which only appends), under delete (survivors are kept
verbatim), and under any update whose payload does not itself supply `id`
or `createdAt`; a payload supplying those keys overwrites them. -/
theorem id_createdAt_immutable :
    (∀ (task : String) (now : Nat) (db : DB) (r : HttpResult Todo),
        postTodos task now (.valid db) = .ok r →
        r.file = .valid ⟨db.todos ++ [⟨(now : Int), task, false, now⟩]⟩) ∧
    (∀ (idParam : String) (body : UpdateBody) (db : DB) (r : HttpResult (Option Todo)),
        body.id = none → body.createdAt = none →
        putTodos idParam body (.valid db) = .ok r →
        ∃ db2, r.file = .valid db2 ∧
          db2.todos.map (fun t => (t.id, t.createdAt)) =
            db.todos.map (fun t => (t.id, t.createdAt))) ∧
    (∀ (idParam : String) (db : DB) (r : HttpResult Unit),
        deleteTodos idParam (.valid db) = .ok r →
        ∃ db2, r.file = .valid db2 ∧ List.Sublist db2.todos db.todos) := by
  refine ⟨?_, ?_, ?_⟩
  · intro task now db r h
    rw [postTodos_valid] at h
    injection h with h2
    rw [← h2]
  · intro idParam body db r hid hcr h
    cases hu : updateAt body (parseIntJS idParam) db.todos with
    | none =>
      rw [putTodos_notfound hu] at h
      injection h with h2
      exact ⟨db, by rw [← h2], rfl⟩
    | some p =>
      obtain ⟨l2, m⟩ := p
      rw [putTodos_found hu] at h
      injection h with h2
      exact ⟨⟨l2⟩, by rw [← h2], updateAt_map_pairs hid hcr hu⟩
  · intro idParam db r h
    by_cases hex : ∀ t ∈ db.todos, jsEqId t.id (parseIntJS idParam) = false
    · rw [deleteTodos_notfound hex] at h
      injection h with h2
      exact ⟨db, by rw [← h2], List.Sublist.refl _⟩
    · push_neg at hex
      obtain ⟨t, ht, htid⟩ := hex
      simp only [Bool.not_eq_false] at htid
      rw [deleteTodos_found ⟨t, ht, htid⟩] at h
      injection h with h2
      exact ⟨⟨_⟩, by rw [← h2], List.filter_sublist _⟩

/-- Witness for C6 (amended): one concrete run of each operation. -/
theorem id_createdAt_immutable_witness :
    (⟨201, ⟨7, "x", false, 7⟩, .valid ⟨[⟨1, "a", false, 5⟩, ⟨7, "x", false, 7⟩]⟩,
        some [⟨7, "x", false, 7⟩, ⟨1, "a", false, 5⟩]⟩ : HttpResult Todo).file =
      .valid ⟨[⟨1, "a", false, 5⟩] ++ [⟨7, "x", false, 7⟩]⟩ ∧
    (∃ db2, (⟨200, some ⟨1, "a", true, 5⟩, .valid ⟨[⟨1, "a", true, 5⟩]⟩,
        some [⟨1, "a", true, 5⟩]⟩ : HttpResult (Option Todo)).file = .valid db2 ∧
      db2.todos.map (fun t => (t.id, t.createdAt)) =
        ([⟨1, "a", false, 5⟩] : List Todo).map (fun t => (t.id, t.createdAt))) ∧
    (∃ db2, (⟨204, (), .valid ⟨[]⟩, some []⟩ : HttpResult Unit).file = .valid db2 ∧
      List.Sublist db2.todos [⟨3, "a", false, 1⟩]) :=
  ⟨id_createdAt_immutable.1 "x" 7 ⟨[⟨1, "a", false, 5⟩]⟩ _ (by decide),
   by
    have h := id_createdAt_immutable.2.1 "1" ⟨none, none, some true, none⟩
      ⟨[⟨1, "a", false, 5⟩]⟩
      ⟨200, some ⟨1, "a", true, 5⟩, .valid ⟨[⟨1, "a", true, 5⟩]⟩, some [⟨1, "a", true, 5⟩]⟩
      rfl rfl (by decide)
    exact h,
   id_createdAt_immutable.2.2 "3" ⟨[⟨3, "a", false, 1⟩]⟩ _ (by decide)⟩

/-- Claim C9: one DELETE of id X filters out every stored task whose id
equals X — not exactly one — and succeeds with 204 whenever at least one
task matched, so duplicate ids vanish together under a single request. -/
theorem delete_removes_all_matching (db : DB) (idParam : String) (n : Int)
    (hp : parseIntJS idParam = some n)
    (t0 : Todo) (ht0 : t0 ∈ db.todos) (hid0 : t0.id = n) :
    ∃ db2, deleteTodos idParam (.valid db) =
        .ok ⟨204, (), .valid db2, some (sortTodos db2.todos)⟩ ∧
      db2.todos = db.todos.filter (fun t => !(t.id == n)) ∧
      ∀ t ∈ db2.todos, t.id ≠ n := by
  have hex : ∃ t ∈ db.todos, jsEqId t.id (parseIntJS idParam) = true :=
    ⟨t0, ht0, by simp [jsEqId, hp, hid0]⟩
  refine ⟨⟨db.todos.filter (fun t => !(jsEqId t.id (parseIntJS idParam)))⟩,
    deleteTodos_found hex, ?_, ?_⟩
  · simp [jsEqId, hp]
  · intro t htf
    have hkeep := (List.mem_filter.mp htf).2
    simp [jsEqId, hp] at hkeep
    exact hkeep

/-- Witness for C9: deleting id 3 from a store holding two tasks with
id 3 removes both and answers 204. -/
theorem delete_removes_all_matching_witness :
    ∃ db2, deleteTodos "3" (.valid ⟨[⟨3, "a", false, 1⟩, ⟨3, "b", false, 2⟩]⟩) =
        .ok ⟨204, (), .valid db2, some (sortTodos db2.todos)⟩ ∧
      db2.todos = ([⟨3, "a", false, 1⟩, ⟨3, "b", false, 2⟩] : List Todo).filter
        (fun t => !(t.id == 3)) ∧
      ∀ t ∈ db2.todos, t.id ≠ 3 :=
  delete_removes_all_matching ⟨[⟨3, "a", false, 1⟩, ⟨3, "b", false, 2⟩]⟩ "3" 3
    (by decide) ⟨3, "a", false, 1⟩ (by decide) (by decide)

/-- Claim C10: PUT and DELETE coerce the path id with `parseInt` before a
strict-equality lookup: a path whose prefix parses to no digits (NaN)
always answers 404 whatever the collection holds, and a path such as
"123abc" behaves exactly like "123". -/
theorem parseInt_coercion_lookup :
    (∀ (db : DB) (idParam : String) (body : UpdateBody), parseIntJS idParam = none →
        putTodos idParam body (.valid db) = .ok ⟨404, none, .valid db, none⟩ ∧
        deleteTodos idParam (.valid db) = .ok ⟨404, (), .valid db, none⟩) ∧
    parseIntJS "123abc" = some 123 ∧
    (∀ (body : UpdateBody) (fs : FileState),
        putTodos "123abc" body fs = putTodos "123" body fs ∧
        deleteTodos "123abc" fs = deleteTodos "123" fs) := by
  refine ⟨?_, by decide, ?_⟩
  · intro db idParam body hnan
    have habs : ∀ t ∈ db.todos, jsEqId t.id (parseIntJS idParam) = false := by
      intro t _
      rw [hnan]
      rfl
    exact ⟨putTodos_notfound (updateAt_eq_none.mpr habs), deleteTodos_notfound habs⟩
  · intro body fs
    have h1 : parseIntJS "123abc" = parseIntJS "123" := by decide
    constructor
    · unfold putTodos
      rw [h1]
    · unfold deleteTodos
      rw [h1]

/-- Witness for C10: a non-numeric path id 404s against a nonempty store. -/
theorem parseInt_coercion_lookup_witness :
    (putTodos "abc" ⟨none, none, some true, none⟩ (.valid ⟨[⟨1, "a", false, 5⟩]⟩) =
        .ok ⟨404, none, .valid ⟨[⟨1, "a", false, 5⟩]⟩, none⟩ ∧
      deleteTodos "abc" (.valid ⟨[⟨1, "a", false, 5⟩]⟩) =
        .ok ⟨404, (), .valid ⟨[⟨1, "a", false, 5⟩]⟩, none⟩) ∧
    (putTodos "123abc" ⟨none, none, some true, none⟩ (.valid ⟨[⟨123, "a", false, 5⟩]⟩) =
        putTodos "123" ⟨none, none, some true, none⟩ (.valid ⟨[⟨123, "a", false, 5⟩]⟩) ∧
      deleteTodos "123abc" (.valid ⟨[⟨123, "a", false, 5⟩]⟩) =
        deleteTodos "123" (.valid ⟨[⟨123, "a", false, 5⟩]⟩)) :=
  ⟨parseInt_coercion_lookup.1 ⟨[⟨1, "a", false, 5⟩]⟩ "abc"
      ⟨none, none, some true, none⟩ (by decide),
   parseInt_coercion_lookup.2.2 ⟨none, none, some true, none⟩
      (.valid ⟨[⟨123, "a", false, 5⟩]⟩)⟩

end FireToDo
